import Mathlib

/-!
Verification development for the Gladly→Shopify FAQ mapping repository.

This file gives a shallow embedding, in Lean 4, of the decision logic of the
repository:

* `generate_question_handle` (faq_mapper.py / app.py, `FAQMapper`),
* the destination-document patch operations `add_faq_question` and
  `remove_faq_question` (shopify_client.py, `ShopifyFAQClient`),
* the fuzzy matcher and `create_mapping` (create_file_mapping.py, built on
  `rapidfuzz.fuzz.token_sort_ratio`),
* the mapping loader `load_mapping` (app.py, built on `pandas.read_csv`),
* the per-language reconciliation loop `sync_language_faqs` (app.py).

Python strings are embedded as Lean `String`/`List Char`; Python dicts that
model JSON objects are embedded as insertion-ordered association lists;
fallible operations return explicit success flags or `Except`; the similarity
score returned by rapidfuzz (a double in [0, 100]) is embedded as an exact
rational.  Network transport is abstracted as succeeding: the HTTP glue is
out of scope, so a destination write fails in the embedding exactly when the
code's own checks make it fail (missing section, missing block).
-/

namespace FaqSync

/-! ## Character classes used by the regexes in `generate_question_handle` -/

/-- The characters matched by the regex class `\s` on ASCII input:
space, tab, newline, carriage return, vertical tab, form feed. -/
def isPySpace (c : Char) : Bool :=
  c = ' ' || c = '\t' || c = '\n' || c = '\r' || c.toNat = 11 || c.toNat = 12

/-- The regex class `[a-zA-Z0-9]`. -/
def isAsciiAlnum (c : Char) : Bool :=
  ('a' ≤ c && c ≤ 'z') || ('A' ≤ c && c ≤ 'Z') || ('0' ≤ c && c ≤ '9')

/-! ## `generate_question_handle` (faq_mapper.py lines 35-46, identical copy
in app.py)

```python
handle = re.sub(r'[^a-zA-Z0-9\s]', '', title.lower())
handle = re.sub(r'\s+', '-', handle)
handle = handle.strip('-')
if len(handle) > 50:
    handle = handle[:50].rstrip('-')
return handle or "faq-question"
```

`str.lower` is embedded by `Char.toLower`, the ASCII lowercase map; on
characters where Python's Unicode lowercasing is not the ASCII map the two
sides agree after the `[^a-zA-Z0-9\s]` filter for every character whose
lowercase form stays outside ASCII (the common case for this repository's
French titles). -/

/-- Worker for `collapseWs`; the flag records whether the previous character
was part of a whitespace run that has already emitted its hyphen. -/
def collapseWsAux : Bool → List Char → List Char
  | _, [] => []
  | inRun, c :: rest =>
    if isPySpace c then
      if inRun then collapseWsAux true rest
      else '-' :: collapseWsAux true rest
    else c :: collapseWsAux false rest

/-- `re.sub(r'\s+', '-', s)`: replace every maximal run of whitespace with a
single hyphen. -/
def collapseWs (l : List Char) : List Char :=
  collapseWsAux false l

/-- `str.strip(ch)`: drop the character `ch` from both ends. -/
def stripChar (ch : Char) (l : List Char) : List Char :=
  ((l.dropWhile (· = ch)).reverse.dropWhile (· = ch)).reverse

/-- `str.rstrip(ch)`: drop the character `ch` from the right end. -/
def rstripChar (ch : Char) (l : List Char) : List Char :=
  (l.reverse.dropWhile (· = ch)).reverse

/-- Line `handle = re.sub(r'[^a-zA-Z0-9\s]', '', title.lower())`:
lowercase, then drop every character outside `[a-zA-Z0-9\s]`. -/
def gqhFiltered (title : String) : List Char :=
  (title.toList.map Char.toLower).filter (fun c => isAsciiAlnum c || isPySpace c)

/-- Lines `handle = re.sub(r'\s+', '-', handle)` and
`handle = handle.strip('-')`. -/
def gqhStripped (title : String) : List Char :=
  stripChar '-' (collapseWs (gqhFiltered title))

/-- Lines `if len(handle) > 50: handle = handle[:50].rstrip('-')`. -/
def gqhTruncated (title : String) : List Char :=
  if (gqhStripped title).length > 50 then
    rstripChar '-' ((gqhStripped title).take 50)
  else gqhStripped title

/-- `FAQMapper.generate_question_handle` (faq_mapper.py lines 35-46); the
final line is `return handle or "faq-question"`. -/
def generate_question_handle (title : String) : String :=
  if (gqhTruncated title).isEmpty then "faq-question"
  else String.mk (gqhTruncated title)

/-- A slug character: ASCII alphanumeric or hyphen. -/
def isSlugChar (c : Char) : Bool :=
  isAsciiAlnum c || c = '-'

theorem collapseWsAux_chars (l : List Char) :
    ∀ b, (∀ c ∈ l, isAsciiAlnum c || isPySpace c) →
      ∀ c ∈ collapseWsAux b l, isSlugChar c := by
  induction l with
  | nil => intro b _ c hc; simp [collapseWsAux] at hc
  | cons c rest ih =>
    intro b h d hd
    have hrest : ∀ e ∈ rest, isAsciiAlnum e || isPySpace e :=
      fun e he => h e (List.mem_cons_of_mem _ he)
    by_cases hsp : isPySpace c = true
    · rw [collapseWsAux, if_pos hsp] at hd
      cases b with
      | true => exact ih true hrest d hd
      | false =>
        rcases List.mem_cons.mp hd with h1 | h1
        · subst h1; decide
        · exact ih true hrest d h1
    · rw [collapseWsAux, if_neg hsp] at hd
      rcases List.mem_cons.mp hd with h1 | h1
      · have h2 := h c (List.mem_cons_self c rest)
        simp only [Bool.or_eq_true] at h2
        rcases h2 with h3 | h3
        · simp only [h1, isSlugChar, Bool.or_eq_true]
          exact Or.inl h3
        · exact absurd h3 hsp
      · exact ih false hrest d h1

theorem collapseWs_chars (l : List Char) :
    (∀ c ∈ l, isAsciiAlnum c || isPySpace c) → ∀ c ∈ collapseWs l, isSlugChar c :=
  collapseWsAux_chars l false

theorem stripChar_subset (ch : Char) (l : List Char) :
    stripChar ch l ⊆ l := by
  intro c hc
  unfold stripChar at hc
  rw [List.mem_reverse] at hc
  have h1 := List.dropWhile_subset (l := (l.dropWhile (· = ch)).reverse) (· = ch) hc
  rw [List.mem_reverse] at h1
  exact List.dropWhile_subset _ h1

theorem rstripChar_subset (ch : Char) (l : List Char) :
    rstripChar ch l ⊆ l := by
  intro c hc
  unfold rstripChar at hc
  rw [List.mem_reverse] at hc
  have h1 := List.dropWhile_subset (l := l.reverse) (· = ch) hc
  rw [List.mem_reverse] at h1
  exact h1

theorem rstripChar_length_le (ch : Char) (l : List Char) :
    (rstripChar ch l).length ≤ l.length := by
  unfold rstripChar
  rw [List.length_reverse]
  calc (l.reverse.dropWhile (· = ch)).length
      ≤ l.reverse.length := (List.dropWhile_sublist _).length_le
    _ = l.length := List.length_reverse _

theorem gqhStripped_chars (title : String) :
    ∀ c ∈ gqhStripped title, isSlugChar c := by
  intro c hc
  have hc2 := stripChar_subset '-' _ hc
  refine collapseWs_chars _ ?_ c hc2
  intro d hd
  exact (List.mem_filter.mp hd).2

theorem gqhTruncated_chars (title : String) :
    ∀ c ∈ gqhTruncated title, isSlugChar c := by
  intro c hc
  unfold gqhTruncated at hc
  by_cases h : (gqhStripped title).length > 50
  · rw [if_pos h] at hc
    exact gqhStripped_chars title c
      (List.take_subset _ _ (rstripChar_subset '-' _ hc))
  · rw [if_neg h] at hc
    exact gqhStripped_chars title c hc

theorem gqhTruncated_length_le (title : String) :
    (gqhTruncated title).length ≤ 50 := by
  unfold gqhTruncated
  by_cases h : (gqhStripped title).length > 50
  · rw [if_pos h]
    calc (rstripChar '-' ((gqhStripped title).take 50)).length
        ≤ ((gqhStripped title).take 50).length := rstripChar_length_le _ _
      _ ≤ 50 := List.length_take_le _ _
  · rw [if_neg h]
    exact Nat.le_of_not_lt h

/-- **C9.** Handle generation is a pure function of the title that
lowercases, strips characters outside alphanumerics and whitespace,
collapses whitespace runs to single hyphens, trims leading/trailing
hyphens, truncates to at most 50 characters (stripping a trailing hyphen
left by truncation) and falls back to the fixed slug `"faq-question"`
when the result would be empty.  Its output is always non-empty, at most
50 characters long, and every character is alphanumeric or a hyphen; the
spec's concrete example and the punctuation-only fallback evaluate as
stated. -/
theorem c9_handle_slug (title : String) :
    generate_question_handle title ≠ ""
    ∧ (generate_question_handle title).length ≤ 50
    ∧ (∀ c ∈ (generate_question_handle title).toList, isSlugChar c)
    ∧ generate_question_handle "Sapins de Noël!!" = "sapins-de-nol"
    ∧ generate_question_handle "!!!" = "faq-question" := by
  refine ⟨?_, ?_, ?_, by decide, by decide⟩
  · unfold generate_question_handle
    by_cases h : (gqhTruncated title).isEmpty
    · rw [if_pos h]; decide
    · rw [if_neg h]
      intro hcontra
      have : gqhTruncated title = [] := by
        have := congrArg String.data hcontra
        simpa using this
      rw [this] at h
      simp [List.isEmpty] at h
  · unfold generate_question_handle
    by_cases h : (gqhTruncated title).isEmpty
    · rw [if_pos h]; decide
    · rw [if_neg h]
      show (gqhTruncated title).length ≤ 50
      exact gqhTruncated_length_le title
  · unfold generate_question_handle
    by_cases h : (gqhTruncated title).isEmpty
    · rw [if_pos h]; decide
    · rw [if_neg h]
      intro c hc
      exact gqhTruncated_chars title c hc

/-! ## The destination document (templates/page.faq-questions.json)

JSON objects are embedded as insertion-ordered association lists, matching
Python dict iteration order.  `dictGet`/`dictSet` model `d[k]` reads and
writes (assignment to an existing key replaces in place, a new key is
appended), `List.filter` on keys models `del d[k]` (keys of a parsed JSON
object are unique). -/

structure BlockSettings where
  question_handle : String
  heading : String
  question_content : String
deriving DecidableEq, Repr

structure Block where
  type : String
  settings : BlockSettings
deriving DecidableEq, Repr

structure FaqSection where
  blocks : List (String × Block)
  block_order : List String
  question_category : Option String
  icon_faq : Option String
deriving DecidableEq, Repr

structure FaqData where
  sections : List (String × FaqSection)
deriving DecidableEq, Repr

def dictGet (l : List (String × α)) (k : String) : Option α :=
  (l.find? (fun p => p.1 = k)).map (·.2)

def dictSet (l : List (String × α)) (k : String) (v : α) : List (String × α) :=
  if (l.find? (fun p => p.1 = k)).isSome then
    l.map (fun p => if p.1 = k then (k, v) else p)
  else l ++ [(k, v)]

theorem dictSet_mem {l : List (String × α)} {k : String} {v : α} {p : String × α}
    (h : p ∈ dictSet l k v) : p = (k, v) ∨ p ∈ l := by
  unfold dictSet at h
  by_cases hf : (l.find? (fun p => p.1 = k)).isSome
  · rw [if_pos hf] at h
    rcases List.mem_map.mp h with ⟨q, hq, hqe⟩
    by_cases hk : q.1 = k
    · left; rw [← hqe, if_pos hk]
    · right; rw [← hqe, if_neg hk]; exact hq
  · rw [if_neg hf] at h
    rcases List.mem_append.mp h with h1 | h1
    · exact Or.inr h1
    · exact Or.inl (List.mem_singleton.mp h1)

theorem dictSet_keys_superset {l : List (String × α)} {k : String} {v : α}
    {id : String} (h : id ∈ l.map Prod.fst) :
    id ∈ (dictSet l k v).map Prod.fst := by
  unfold dictSet
  by_cases hf : (l.find? (fun p => p.1 = k)).isSome
  · rw [if_pos hf]
    rcases List.mem_map.mp h with ⟨q, hq, hqe⟩
    refine List.mem_map.mpr ⟨if q.1 = k then (k, v) else q, List.mem_map_of_mem _ hq, ?_⟩
    by_cases hk : q.1 = k
    · rw [if_pos hk]; rw [← hqe, hk]
    · rw [if_neg hk]; exact hqe
  · rw [if_neg hf, List.map_append]
    exact List.mem_append_left _ h

theorem dictSet_key_mem (l : List (String × α)) (k : String) (v : α) :
    k ∈ (dictSet l k v).map Prod.fst := by
  unfold dictSet
  by_cases hf : (l.find? (fun p => p.1 = k)).isSome
  · rw [if_pos hf]
    rcases Option.isSome_iff_exists.mp hf with ⟨q, hq⟩
    have hqmem := List.mem_of_find?_eq_some hq
    have hqk : q.1 = k := by
      have hqd := List.find?_some hq
      simpa using hqd
    refine List.mem_map.mpr ⟨(k, v), ?_, rfl⟩
    refine List.mem_map.mpr ⟨q, hqmem, ?_⟩
    rw [if_pos hqk]
  · rw [if_neg hf, List.map_append]
    exact List.mem_append_right _ (by simp)

theorem dictSet_keys_subset {l : List (String × α)} {k : String} {v : α}
    {id : String} (h : id ∈ (dictSet l k v).map Prod.fst) :
    id = k ∨ id ∈ l.map Prod.fst := by
  rcases List.mem_map.mp h with ⟨q, hq, hqe⟩
  rcases dictSet_mem hq with h1 | h1
  · left; rw [← hqe, h1]
  · right; exact List.mem_map.mpr ⟨q, h1, hqe⟩

theorem dictGet_mem {l : List (String × α)} {k : String} {v : α}
    (h : dictGet l k = some v) : (k, v) ∈ l := by
  unfold dictGet at h
  rcases Option.map_eq_some'.mp h with ⟨q, hq, hqe⟩
  have hqmem := List.mem_of_find?_eq_some hq
  have hqk : q.1 = k := by
    have hqd := List.find?_some hq
    simpa using hqd
  have : q = (k, v) := by
    cases q
    simp only at hqk hqe
    rw [hqk, hqe]
  rw [← this]
  exact hqmem

/-- The §3 invariant of the destination document: in every section, every id
in the order list is a key of the block map and every block-map key appears
in the order list. -/
def docInv (doc : FaqData) : Prop :=
  ∀ p ∈ doc.sections,
    (∀ id ∈ p.2.block_order, id ∈ p.2.blocks.map Prod.fst)
    ∧ (∀ id ∈ p.2.blocks.map Prod.fst, id ∈ p.2.block_order)

instance (doc : FaqData) : Decidable (docInv doc) := by
  unfold docInv; infer_instance

/-! ## `ShopifyFAQClient.add_faq_question` (shopify_client.py lines 76-145)
and `remove_faq_question` (lines 177-235)

The HTTP fetch/PUT steps and the backup write are transport glue with no
effect on the document structure; the embedding takes the current document
as input and returns the success flag together with the updated document.
`new_block_id` (`str(uuid.uuid4())` in the code) is a parameter. -/

/-- The `if category: ...` / `if icon: ...` settings updates at the end of
`add_faq_question` (empty strings are falsy in Python). -/
def applySectionSettings (sec : FaqSection) (category icon : Option String) :
    FaqSection :=
  let s1 := match category with
    | some c => if c ≠ "" then { sec with question_category := some c } else sec
    | none => sec
  match icon with
  | some i => if i ≠ "" then { s1 with icon_faq := some i } else s1
  | none => s1

theorem applySectionSettings_blocks (sec : FaqSection) (category icon : Option String) :
    (applySectionSettings sec category icon).blocks = sec.blocks
    ∧ (applySectionSettings sec category icon).block_order = sec.block_order := by
  cases category <;> cases icon <;>
    simp only [applySectionSettings] <;> (try split_ifs) <;> simp

/-- `ShopifyFAQClient.add_faq_question`: returns `False` and leaves the
document untouched when the target section is absent; otherwise writes the
new block into the section's block map, appends its id to `block_order`,
optionally updates the section settings and returns `True`. -/
def add_faq_question (doc : FaqData) (newBlockId : String)
    (question_handle heading content : String)
    (category icon : Option String) (sectionId : String) : Bool × FaqData :=
  match dictGet doc.sections sectionId with
  | none => (false, doc)
  | some sec =>
    let newBlock : Block := ⟨"question", ⟨question_handle, heading, content⟩⟩
    let sec1 := { sec with
      blocks := dictSet sec.blocks newBlockId newBlock,
      block_order := sec.block_order ++ [newBlockId] }
    let sec2 := applySectionSettings sec1 category icon
    (true, ⟨dictSet doc.sections sectionId sec2⟩)

/-- `ShopifyFAQClient.remove_faq_question`: finds the first block of type
`"question"` whose handle matches, deletes it from the block map, and
removes its first occurrence from `block_order` when present. -/
def remove_faq_question (doc : FaqData) (question_handle : String)
    (sectionId : String) : Bool × FaqData :=
  let sec := (dictGet doc.sections sectionId).getD ⟨[], [], none, none⟩
  match sec.blocks.find?
      (fun p => p.2.type = "question"
        && p.2.settings.question_handle = question_handle) with
  | none => (false, doc)
  | some b =>
    let sec1 := { sec with
      blocks := sec.blocks.filter (fun p => p.1 != b.1),
      block_order := if b.1 ∈ sec.block_order
        then sec.block_order.erase b.1 else sec.block_order }
    (true, ⟨dictSet doc.sections sectionId sec1⟩)

theorem filter_ne_keys_mem {l : List (String × α)} {bid id : String} :
    id ∈ (l.filter (fun p => p.1 != bid)).map Prod.fst
      ↔ id ∈ l.map Prod.fst ∧ id ≠ bid := by
  constructor
  · intro h
    rcases List.mem_map.mp h with ⟨q, hq, hqe⟩
    have hq2 := List.mem_filter.mp hq
    refine ⟨List.mem_map.mpr ⟨q, hq2.1, hqe⟩, ?_⟩
    rw [← hqe]
    simpa using hq2.2
  · intro ⟨h1, h2⟩
    rcases List.mem_map.mp h1 with ⟨q, hq, hqe⟩
    refine List.mem_map.mpr ⟨q, List.mem_filter.mpr ⟨hq, ?_⟩, hqe⟩
    simp only [bne_iff_ne, ne_eq, hqe]
    exact h2

theorem add_faq_question_preserves_docInv (doc : FaqData)
    (newId qh hd ct : String) (cat icon : Option String) (sid : String)
    (hinv : docInv doc) :
    docInv (add_faq_question doc newId qh hd ct cat icon sid).2 := by
  unfold add_faq_question
  cases hsec : dictGet doc.sections sid with
  | none => exact hinv
  | some sec =>
    dsimp only
    intro p hp
    rcases dictSet_mem hp with h1 | h1
    · have hsmem := dictGet_mem hsec
      have hsinv := hinv _ hsmem
      subst h1
      dsimp only
      rcases applySectionSettings_blocks
        { sec with
          blocks := dictSet sec.blocks newId ⟨"question", ⟨qh, hd, ct⟩⟩,
          block_order := sec.block_order ++ [newId] } cat icon with ⟨hb, ho⟩
      rw [hb, ho]
      dsimp only
      constructor
      · intro id hid
        rcases List.mem_append.mp hid with h2 | h2
        · exact dictSet_keys_superset (hsinv.1 id h2)
        · rw [List.mem_singleton.mp h2]
          exact dictSet_key_mem _ _ _
      · intro id hid
        rcases dictSet_keys_subset hid with h2 | h2
        · exact List.mem_append_right _ (by rw [h2]; simp)
        · exact List.mem_append_left _ (hsinv.2 id h2)
    · exact hinv p h1

theorem remove_faq_question_preserves_docInv (doc : FaqData)
    (qh sid : String) (hinv : docInv doc)
    (hnd : ∀ p ∈ doc.sections, p.2.block_order.Nodup) :
    docInv (remove_faq_question doc qh sid).2 := by
  unfold remove_faq_question
  cases hget : dictGet doc.sections sid with
  | none => exact hinv
  | some s =>
    simp only [Option.getD_some]
    cases hf : s.blocks.find?
        (fun p => p.2.type = "question"
          && p.2.settings.question_handle = qh) with
    | none => exact hinv
    | some b =>
      dsimp only
      have hsmem := dictGet_mem hget
      have hsinv := hinv _ hsmem
      have hsnd := hnd _ hsmem
      have hbmem : b ∈ s.blocks := List.mem_of_find?_eq_some hf
      have hbkey : b.1 ∈ s.blocks.map Prod.fst := List.mem_map_of_mem _ hbmem
      have hborder : b.1 ∈ s.block_order := hsinv.2 b.1 hbkey
      intro p hp
      rcases dictSet_mem hp with h1 | h1
      · subst h1
        dsimp only
        rw [if_pos hborder]
        constructor
        · intro id hid
          have h2 := hsnd.mem_erase_iff.mp hid
          exact filter_ne_keys_mem.mpr ⟨hsinv.1 id h2.2, h2.1⟩
        · intro id hid
          have h2 := filter_ne_keys_mem.mp hid
          exact hsnd.mem_erase_iff.mpr ⟨h2.2, hsinv.2 id h2.1⟩
      · exact hinv p h1

/-- A document whose sole section's order list references block `"b"`
twice; the set-membership invariant of §3 holds for it. -/
def c8BadDoc : FaqData :=
  ⟨[("s", ⟨[("b", ⟨"question", ⟨"h", "Heading", "content"⟩⟩)],
    ["b", "b"], none, none⟩)]⟩

/-- **C8 counterexample.**  `remove_faq_question` deletes the block from
the block map but removes only the first occurrence of its id from the
order list, so on a document whose order list mentions the id twice the
invariant (every order-list id is a block-map key) is broken even though
it held before the patch. -/
theorem c8_remove_breaks_invariant :
    docInv c8BadDoc
    ∧ (remove_faq_question c8BadDoc "h" "s").1 = true
    ∧ ¬ docInv (remove_faq_question c8BadDoc "h" "s").2 := by
  decide

/-- **C8 (amended).**  On documents satisfying the invariant,
`add_faq_question` always preserves it, and `remove_faq_question`
preserves it provided no section's order list contains a duplicate
identifier. -/
theorem c8_patch_preserves_invariant :
    (∀ (doc : FaqData) (newId qh hd ct : String) (cat icon : Option String)
      (sid : String), docInv doc →
      docInv (add_faq_question doc newId qh hd ct cat icon sid).2)
    ∧ (∀ (doc : FaqData) (qh sid : String), docInv doc →
      (∀ p ∈ doc.sections, p.2.block_order.Nodup) →
      docInv (remove_faq_question doc qh sid).2) :=
  ⟨add_faq_question_preserves_docInv, remove_faq_question_preserves_docInv⟩

/-- A well-formed one-section document used to instantiate the C8 theorem. -/
def c8GoodDoc : FaqData :=
  ⟨[("s", ⟨[("b1", ⟨"question", ⟨"h1", "H1", "C1"⟩⟩)], ["b1"], none, none⟩)]⟩

theorem c8_patch_preserves_invariant_witness :
    docInv (add_faq_question c8GoodDoc "b2" "h2" "H2" "C2"
      (some "Général") (some "ic") "s").2
    ∧ docInv (remove_faq_question c8GoodDoc "h1" "s").2 :=
  ⟨c8_patch_preserves_invariant.1 c8GoodDoc "b2" "h2" "H2" "C2"
      (some "Général") (some "ic") "s" (by decide),
    c8_patch_preserves_invariant.2 c8GoodDoc "h1" "s" (by decide) (by decide)⟩

/-! ## The fuzzy matcher (`rapidfuzz.fuzz.token_sort_ratio`) and
`create_mapping` (create_file_mapping.py lines 55-83)

`token_sort_ratio(s1, s2)` splits each string into whitespace-separated
tokens, sorts the tokens, joins them with single spaces and computes
`fuzz.ratio` of the two joined strings: the normalized Indel similarity as
a percentage, `100 * (1 - dist/(len1+len2))` where the Indel distance is
`len1 + len2 - 2 * lcs`.  rapidfuzz returns a double; the embedding
computes the same value exactly in `ℚ` (rapidfuzz 3.x applies no default
processor, so no lowercasing happens before tokenizing). -/

/-- `str.split()`: split on runs of whitespace, discarding empty tokens;
`acc` holds the current token reversed. -/
def pySplitAux : List Char → List Char → List (List Char)
  | [], acc => if acc.isEmpty then [] else [acc.reverse]
  | c :: rest, acc =>
    if isPySpace c then
      if acc.isEmpty then pySplitAux rest []
      else acc.reverse :: pySplitAux rest []
    else pySplitAux rest (c :: acc)

def pySplit (l : List Char) : List (List Char) :=
  pySplitAux l []

/-- Lexicographic comparison of strings by code point, as Python `sorted`
compares them. -/
def charListLe : List Char → List Char → Bool
  | [], _ => true
  | _ :: _, [] => false
  | a :: as, b :: bs =>
    if a < b then true
    else if b < a then false
    else charListLe as bs

def insertTok (x : List Char) : List (List Char) → List (List Char)
  | [] => [x]
  | y :: ys => if charListLe y x then y :: insertTok x ys else x :: y :: ys

/-- Stable sort of the token list (insertion sort). -/
def sortTokens : List (List Char) → List (List Char)
  | [] => []
  | x :: xs => insertTok x (sortTokens xs)

/-- The token_sort preprocessing: split, sort, join with single spaces. -/
def tokenSort (s : String) : List Char :=
  List.intercalate [' '] (sortTokens (pySplit s.toList))

/-- One row of the longest-common-subsequence table: `left` is the cell
just computed in this row, `diag` the cell above-left, `prevTail` the rest
of the previous row. -/
def nrAux (c : Char) : List Char → Nat → Nat → List Nat → List Nat
  | [], _, _, _ => []
  | bj :: brest, left, diag, prevTail =>
    let up := prevTail.headD 0
    let cur := if bj = c then diag + 1 else max left up
    cur :: nrAux c brest cur up prevTail.tail

def nextRow (c : Char) (b : List Char) (prev : List Nat) : List Nat :=
  0 :: nrAux c b 0 (prev.headD 0) prev.tail

/-- Length of the longest common subsequence, by the standard
row-by-row dynamic program. -/
def lcs (a b : List Char) : Nat :=
  (a.foldl (fun row c => nextRow c b row) (List.replicate (b.length + 1) 0)).getLastD 0

/-- `fuzz.ratio`: normalized Indel similarity as a percentage.  The Indel
distance is `len1 + len2 - 2 * lcs`, so the similarity is
`200 * lcs / (len1 + len2)`; two empty strings score 100. -/
def fuzzRatio (a b : List Char) : ℚ :=
  if a.length + b.length = 0 then 100
  else (200 * (lcs a b : ℚ)) / ((a.length : ℚ) + (b.length : ℚ))

/-- `rapidfuzz.fuzz.token_sort_ratio`. -/
def token_sort_ratio (s1 s2 : String) : ℚ :=
  fuzzRatio (tokenSort s1) (tokenSort s2)

theorem token_sort_ratio_eval {s1 s2 : String} {L n1 n2 : Nat}
    (hL : lcs (tokenSort s1) (tokenSort s2) = L)
    (h1 : (tokenSort s1).length = n1) (h2 : (tokenSort s2).length = n2)
    (h0 : ¬ (n1 + n2 = 0)) :
    token_sort_ratio s1 s2 = (200 * (L : ℚ)) / ((n1 : ℚ) + (n2 : ℚ)) := by
  unfold token_sort_ratio fuzzRatio
  rw [hL, h1, h2, if_neg h0]

/-- A Gladly answer as consumed by the matching and sync code:
`id`, `name` (question title) and `bodyHtml` (answer). -/
structure GladlyFaq where
  id : String
  name : String
  bodyHtml : String
deriving DecidableEq, Repr

/-- One flattened destination FAQ, as built by the loop at the top of
`create_mapping`: the block settings plus section/category/block ids. -/
structure BosapinFaq where
  question_handle : String
  heading : String
  question_content : String
  section_id : String
  category : String
  block_id : String
deriving DecidableEq, Repr

/-- One record appended to `mapping` in `create_mapping`. -/
structure FileMappingRow where
  gladly_id : String
  bosapin_handle : String
  score : ℚ
deriving DecidableEq, Repr

/-- The flattening loop of `create_mapping`: every block of every section,
tagged with its section id, category (default `""`) and block id. -/
def flattenShopify (doc : FaqData) : List BosapinFaq :=
  doc.sections.flatMap (fun p =>
    p.2.blocks.map (fun q =>
      ⟨q.2.settings.question_handle, q.2.settings.heading,
        q.2.settings.question_content,
        p.1, p.2.question_category.getD "", q.1⟩))

/-- The best-candidate loop of `create_mapping`: start from
`best_score = 0`, `best_match = None`, replace on strict improvement. -/
def bestMatch (g : GladlyFaq) (bfaqs : List BosapinFaq) :
    ℚ × Option BosapinFaq :=
  bfaqs.foldl
    (fun best bfaq =>
      let score := token_sort_ratio g.name bfaq.heading
      if best.1 < score then (score, some bfaq) else best)
    (0, none)

/-- `create_mapping` (create_file_mapping.py): for each Gladly entry, fuzzy
match against every flattened destination heading and append a row exactly
when the best score exceeds 80.  (The `best_match = None` case under
`best_score > 80` is unreachable — see `bestMatch_pos_isSome`.)  The
subsequent pandas merge is presentation only and is not part of the
mapping list. -/
def create_mapping (gladly : List GladlyFaq) (doc : FaqData) :
    List FileMappingRow :=
  let bfaqs := flattenShopify doc
  gladly.flatMap (fun g =>
    let best := bestMatch g bfaqs
    if 80 < best.1 then
      match best.2 with
      | some b => [⟨g.id, b.question_handle, best.1⟩]
      | none => []
    else [])

theorem bestMatch_pos_isSome (g : GladlyFaq) (bfaqs : List BosapinFaq) :
    0 < (bestMatch g bfaqs).1 → (bestMatch g bfaqs).2.isSome := by
  unfold bestMatch
  suffices h : ∀ (init : ℚ × Option BosapinFaq), (0 < init.1 → init.2.isSome) →
      (0 < (bfaqs.foldl
        (fun best bfaq =>
          let score := token_sort_ratio g.name bfaq.heading
          if best.1 < score then (score, some bfaq) else best) init).1 →
        (bfaqs.foldl
          (fun best bfaq =>
            let score := token_sort_ratio g.name bfaq.heading
            if best.1 < score then (score, some bfaq) else best) init).2.isSome) by
    exact h (0, none) (by intro hc; exact absurd hc (lt_irrefl 0))
  induction bfaqs with
  | nil => intro init hinit; exact hinit
  | cons b bs ih =>
    intro init hinit
    rw [List.foldl_cons]
    refine ih _ ?_
    dsimp only
    by_cases hlt : init.1 < token_sort_ratio g.name b.heading
    · rw [if_pos hlt]; intro _; rfl
    · rw [if_neg hlt]; exact hinit

theorem bestMatch_singleton (g : GladlyFaq) (b : BosapinFaq) :
    bestMatch g [b] =
      if 0 < token_sort_ratio g.name b.heading
      then (token_sort_ratio g.name b.heading, some b)
      else (0, none) := by
  unfold bestMatch
  rw [List.foldl_cons, List.foldl_nil]

theorem create_mapping_singleton (g : GladlyFaq) (doc : FaqData)
    (b : BosapinFaq) (hflat : flattenShopify doc = [b]) :
    create_mapping [g] doc =
      if 80 < token_sort_ratio g.name b.heading
      then [⟨g.id, b.question_handle, token_sort_ratio g.name b.heading⟩]
      else [] := by
  unfold create_mapping
  simp only [hflat, List.flatMap_cons, List.flatMap_nil, List.append_nil]
  rw [bestMatch_singleton]
  by_cases h0 : 0 < token_sort_ratio g.name b.heading
  · rw [if_pos h0]
  · rw [if_neg h0]
    rw [if_neg (by norm_num : ¬ (80:ℚ) < 0)]
    rw [if_neg (fun hc => h0 (lt_trans (by norm_num) hc))]

theorem create_mapping_cons (g : GladlyFaq) (gs : List GladlyFaq)
    (doc : FaqData) :
    create_mapping (g :: gs) doc =
      create_mapping [g] doc ++ create_mapping gs doc := by
  unfold create_mapping
  simp only [List.flatMap_cons, List.flatMap_nil, List.append_nil]

/-- Exact score of the spec's boundary example pair: the Indel similarity
of `"aaaaa"` and `"aaaab"` is `200·4/10 = 80`. -/
theorem tsr_boundary_80 : token_sort_ratio "aaaaa" "aaaab" = 80 := by
  have h := token_sort_ratio_eval
    (show lcs (tokenSort "aaaaa") (tokenSort "aaaab") = 4 by decide)
    (show (tokenSort "aaaaa").length = 5 by decide)
    (show (tokenSort "aaaab").length = 5 by decide)
    (by decide)
  rw [h]; norm_num

def s81a : String := String.mk (List.replicate 81 'a' ++ List.replicate 19 'b')

def s81b : String := String.mk (List.replicate 81 'a' ++ List.replicate 19 'c')

set_option maxRecDepth 20000 in
/-- A pair scoring exactly 81: common subsequence 81 over total length 200,
`200·81/200 = 81`. -/
theorem tsr_boundary_81 : token_sort_ratio s81a s81b = 81 := by
  have h := token_sort_ratio_eval
    (show lcs (tokenSort s81a) (tokenSort s81b) = 81 by decide)
    (show (tokenSort s81a).length = 100 by decide)
    (show (tokenSort s81b).length = 100 by decide)
    (by decide)
  rw [h]; norm_num

def c7Doc80 : FaqData :=
  ⟨[("s", ⟨[("b", ⟨"question", ⟨"h80", "aaaab", "c"⟩⟩)], ["b"], none, none⟩)]⟩

def c7Doc81 : FaqData :=
  ⟨[("s", ⟨[("b", ⟨"question", ⟨"h81", s81b, "c"⟩⟩)], ["b"], none, none⟩)]⟩

/-- **C7.** A mapping row is produced for a source entry exactly when the
best candidate score strictly exceeds 80; a candidate scoring exactly 80
is rejected (no row — in the spec's engine this forces creation of a new
destination entry), a candidate scoring 81 is linked. -/
theorem c7_threshold_boundary :
    (∀ (g : GladlyFaq) (doc : FaqData),
      create_mapping [g] doc ≠ [] ↔ 80 < (bestMatch g (flattenShopify doc)).1)
    ∧ token_sort_ratio "aaaaa" "aaaab" = 80
    ∧ create_mapping [⟨"g80", "aaaaa", ""⟩] c7Doc80 = []
    ∧ token_sort_ratio s81a s81b = 81
    ∧ create_mapping [⟨"g81", s81a, ""⟩] c7Doc81 = [⟨"g81", "h81", 81⟩] := by
  refine ⟨?_, tsr_boundary_80, ?_, tsr_boundary_81, ?_⟩
  · intro g doc
    unfold create_mapping
    simp only [List.flatMap_cons, List.flatMap_nil, List.append_nil]
    by_cases h80 : 80 < (bestMatch g (flattenShopify doc)).1
    · rw [if_pos h80]
      have hs := bestMatch_pos_isSome g (flattenShopify doc)
        (lt_trans (by norm_num) h80)
      cases hsnd : (bestMatch g (flattenShopify doc)).2 with
      | none => rw [hsnd] at hs; simp at hs
      | some b =>
        exact iff_of_true (by simp) h80
    · rw [if_neg h80]
      exact iff_of_false (by simp) h80
  · rw [create_mapping_singleton _ _ ⟨"h80", "aaaab", "c", "s", "", "b"⟩ (by decide)]
    dsimp only
    rw [tsr_boundary_80]
    rw [if_neg (lt_irrefl (80 : ℚ))]
  · rw [create_mapping_singleton _ _ ⟨"h81", s81b, "c", "s", "", "b"⟩ (by decide)]
    dsimp only
    rw [tsr_boundary_81]
    rw [if_pos (by norm_num : (80:ℚ) < 81)]

theorem tsr_livraison : token_sort_ratio "Livraison" "Livraison" = 100 := by
  have h := token_sort_ratio_eval
    (show lcs (tokenSort "Livraison") (tokenSort "Livraison") = 9 by decide)
    (show (tokenSort "Livraison").length = 9 by decide)
    (show (tokenSort "Livraison").length = 9 by decide)
    (by decide)
  rw [h]; norm_num

theorem tsr_retour : token_sort_ratio "Retour" "Retour" = 100 := by
  have h := token_sort_ratio_eval
    (show lcs (tokenSort "Retour") (tokenSort "Retour") = 6 by decide)
    (show (tokenSort "Retour").length = 6 by decide)
    (show (tokenSort "Retour").length = 6 by decide)
    (by decide)
  rw [h]; norm_num

def c4Doc : FaqData :=
  ⟨[("sec1", ⟨[("blk1", ⟨"question", ⟨"h", "Livraison", "c"⟩⟩)],
    ["blk1"], some "Général", none⟩)]⟩

def c4Doc2 : FaqData :=
  ⟨[("s2", ⟨[("b2", ⟨"question", ⟨"hq", "Retour", "c"⟩⟩)], ["b2"], none, none⟩)]⟩

/-- **C4 counterexample.**  `create_mapping` keeps no record of headings
already claimed earlier in the run: two source entries titled
`"Livraison"` both best-match the single destination heading
`"Livraison"` (score 100 > 80) and the produced mapping holds two records
with the same non-null destination handle `"h"`. -/
theorem c4_duplicate_handle_counterexample :
    (create_mapping [⟨"g1", "Livraison", "x"⟩, ⟨"g2", "Livraison", "y"⟩]
        c4Doc).map (fun r => r.bosapin_handle) = ["h", "h"]
    ∧ ¬ ((create_mapping [⟨"g1", "Livraison", "x"⟩, ⟨"g2", "Livraison", "y"⟩]
        c4Doc).map (fun r => r.bosapin_handle)).Nodup
    ∧ ("h" : String) ≠ "" := by
  have hb : flattenShopify c4Doc =
      [⟨"h", "Livraison", "c", "sec1", "Général", "blk1"⟩] := by decide
  have h1 : create_mapping [⟨"g1", "Livraison", "x"⟩] c4Doc =
      [⟨"g1", "h", 100⟩] := by
    rw [create_mapping_singleton _ _ _ hb]
    dsimp only
    rw [tsr_livraison, if_pos (by norm_num : (80:ℚ) < 100)]
  have h2 : create_mapping [⟨"g2", "Livraison", "y"⟩] c4Doc =
      [⟨"g2", "h", 100⟩] := by
    rw [create_mapping_singleton _ _ _ hb]
    dsimp only
    rw [tsr_livraison, if_pos (by norm_num : (80:ℚ) < 100)]
  have hrows : create_mapping [⟨"g1", "Livraison", "x"⟩, ⟨"g2", "Livraison", "y"⟩]
      c4Doc = [⟨"g1", "h", 100⟩, ⟨"g2", "h", 100⟩] := by
    rw [create_mapping_cons, h1, h2]
    rfl
  rw [hrows]
  exact ⟨rfl, by decide, by decide⟩

/-- **C4 (amended).**  The matcher tracks no claims: each source entry is
matched against the full flattened candidate list independently of the
rows produced for earlier entries, so a run can produce two mapping
records sharing the same non-null destination handle (here two entries
titled `"Retour"` both link to handle `"hq"`). -/
theorem c4_no_claim_tracking :
    (∀ (gladly : List GladlyFaq) (doc : FaqData),
      create_mapping gladly doc =
        gladly.flatMap (fun g => create_mapping [g] doc))
    ∧ (create_mapping [⟨"s1", "Retour", ""⟩, ⟨"s2", "Retour", ""⟩]
        c4Doc2).map (fun r => r.bosapin_handle) = ["hq", "hq"] := by
  constructor
  · intro gladly doc
    induction gladly with
    | nil => rfl
    | cons g gs ih =>
      rw [create_mapping_cons, List.flatMap_cons, ih]
  · have hb : flattenShopify c4Doc2 =
        [⟨"hq", "Retour", "c", "s2", "", "b2"⟩] := by decide
    have h1 : create_mapping [⟨"s1", "Retour", ""⟩] c4Doc2 =
        [⟨"s1", "hq", 100⟩] := by
      rw [create_mapping_singleton _ _ _ hb]
      dsimp only
      rw [tsr_retour, if_pos (by norm_num : (80:ℚ) < 100)]
    have h2 : create_mapping [⟨"s2", "Retour", ""⟩] c4Doc2 =
        [⟨"s2", "hq", 100⟩] := by
      rw [create_mapping_singleton _ _ _ hb]
      dsimp only
      rw [tsr_retour, if_pos (by norm_num : (80:ℚ) < 100)]
    rw [create_mapping_cons, h1, h2]
    rfl

/-! ## The mapping store (app.py lines 263-295)

`load_mapping(mapping_file)` is `pd.read_csv(mapping_file)` followed by
`to_dict(orient="records")`; `save_mapping` writes the DataFrame back,
returning without writing when the list is empty.  `pandas.read_csv`
raises `FileNotFoundError` when the file does not exist and a parser
error when it cannot be parsed; `load_mapping` adds no handling of its
own.  The backing file is embedded at that level of abstraction: missing,
unparseable, or a parsed table of rows. -/

/-- One row of mapping.csv, with the columns written by
`sync_language_faqs` and `update_mapping` in app.py.  `score` is `none`
for rows appended without a score column (pandas serializes the missing
value as NaN). -/
structure MappingRecord where
  gladly_id : String
  bosapin_handle : String
  shopify_question : String
  gladly_question : String
  shopify_answer : String
  gladly_answer : String
  score : Option ℚ
  updated_time : String
deriving DecidableEq, Repr, Inhabited

/-- The observable states of the backing CSV file. -/
inductive MappingFile where
  | missing
  | unparseable
  | table (rows : List MappingRecord)
deriving DecidableEq, Repr

/-- The exceptions `pandas.read_csv` raises out of `load_mapping`. -/
inductive MappingLoadErr where
  | fileNotFound
  | parserError
deriving DecidableEq, Repr

/-- `load_mapping` (app.py lines 263-265): `pd.read_csv` then
`to_dict(orient="records")`; no handling for a missing file. -/
def load_mapping : MappingFile → Except MappingLoadErr (List MappingRecord)
  | .missing => .error .fileNotFound
  | .unparseable => .error .parserError
  | .table rows => .ok rows

/-- `save_mapping` (app.py lines 267-271): writing an empty list is a
no-op, otherwise the file is overwritten with the full record set. -/
def save_mapping (mapping : List MappingRecord) (file : MappingFile) :
    MappingFile :=
  if mapping.isEmpty then file else .table mapping

/-- **C2 counterexample.**  Loading when the backing file is missing does
not return an empty record list: `pd.read_csv` raises
`FileNotFoundError`, so `load_mapping` fails. -/
theorem c2_missing_file_counterexample :
    load_mapping MappingFile.missing
      = Except.error MappingLoadErr.fileNotFound
    ∧ load_mapping MappingFile.missing ≠ Except.ok [] := by
  refine ⟨rfl, ?_⟩
  intro h
  simp [load_mapping] at h

/-- **C2 (amended).**  `load_mapping` fails on a missing backing file
(there is no first-run empty-list fallback) exactly as it fails on an
unparseable one; a parseable table yields its rows. -/
theorem c2_load_mapping_behavior :
    load_mapping MappingFile.missing
      = Except.error MappingLoadErr.fileNotFound
    ∧ load_mapping MappingFile.unparseable
      = Except.error MappingLoadErr.parserError
    ∧ ∀ rows, load_mapping (MappingFile.table rows) = Except.ok rows :=
  ⟨rfl, rfl, fun _ => rfl⟩

/-! ## `FAQMapper.sync_language_faqs` (app.py lines 107-205)

The reconciliation loop.  Inputs of the embedding: the loaded mapping
list, the fetched Gladly entries, the language tag, the `dry_run` flag,
the current destination document, a stream of fresh block ids standing
for `uuid.uuid4()` (one consumed per live `add_faq_question` call) and
the current timestamp standing for `datetime.now().isoformat()`.  The
`filter_keywords=None` path is the one embedded (no filtering).  The
`try/except` around each entry is modelled as total: every embedded
operation is total, and the one failure path the code itself produces —
`add_faq_question` returning `False` — is modelled explicitly.  HTTP
transport is assumed to succeed, so a live insertion fails exactly when
the configured target section `'faq_questions_VHRPQY'` is absent from
the document.

`mapping_by_id` is a Python dict from `gladly_id` to the record *object*;
it is built once from the loaded list, so it always addresses the last
record of the initial list bearing a given id, appended records are never
visible to lookups in the same run, and in-place mutation of a looked-up
record is mutation of that list position.  The embedding renders this by
resolving each id to the index of the last initial record with that id
(`lastIdxOf`) and reading/writing the current list at that index. -/

/-- The return dict of `sync_language_faqs`: either the early
`{"success": False, "error": "No data from Gladly"}` dict or the full
results dict (whose `success` field is `True` at creation and never
reassigned). -/
structure SyncResult where
  success : Bool
  language : String
  total_gladly_faqs : Nat
  processed : Nat
  added : Nat
  updated : Nat
  skipped : Nat
  errors : List String
deriving DecidableEq, Repr

inductive SyncOutcome where
  | failureNoData (error : String)
  | report (r : SyncResult)
deriving DecidableEq, Repr

/-- The mutable state of one run of the reconciliation loop. -/
structure SyncState where
  mapping : List MappingRecord
  doc : FaqData
  attempts : Nat
  processed : Nat
  added : Nat
  updated : Nat
  skipped : Nat
  errors : List String
deriving Repr

/-- Index of the last record with the given `gladly_id`, mirroring the
dict comprehension `{m["gladly_id"]: m for m in mapping}` in which later
entries overwrite earlier ones. -/
def lastIdxOf : List MappingRecord → String → Option Nat
  | [], _ => none
  | m :: rest, id =>
    match lastIdxOf rest id with
    | some i => some (i + 1)
    | none => if m.gladly_id = id then some 0 else none

/-- The dict appended to `mapping` for a new entry (app.py lines
179-187): empty handle, empty shopify snapshots, no score column. -/
def newMappingRecord (g : GladlyFaq) (now : String) : MappingRecord :=
  ⟨g.id, "", g.name, g.name, "", g.bodyHtml, none, now⟩

/-- One iteration of the loop body of `sync_language_faqs` (app.py lines
140-193) over the state. -/
def processEntry (dryRun : Bool) (idx : String → Option Nat)
    (uuid : Nat → String) (now : String) (s : SyncState) (g : GladlyFaq) :
    SyncState :=
  match idx g.id with
  | some i =>
    let m := s.mapping.getD i default
    if m.gladly_question ≠ g.name ∨ m.gladly_answer ≠ g.bodyHtml then
      let mapping' := if dryRun then s.mapping
        else s.mapping.set i
          { m with gladly_question := g.name, gladly_answer := g.bodyHtml,
                   updated_time := now }
      { s with mapping := mapping', updated := s.updated + 1,
               processed := s.processed + 1 }
    else
      { s with skipped := s.skipped + 1, processed := s.processed + 1 }
  | none =>
    if dryRun then
      { s with mapping := s.mapping ++ [newMappingRecord g now],
               added := s.added + 1, processed := s.processed + 1 }
    else
      let res := add_faq_question s.doc (uuid s.attempts)
        (generate_question_handle g.name) g.name g.bodyHtml
        (some "Général") (some "bosapin-interrogation") "faq_questions_VHRPQY"
      if res.1 then
        { s with doc := res.2, attempts := s.attempts + 1,
                 mapping := s.mapping ++ [newMappingRecord g now],
                 added := s.added + 1, processed := s.processed + 1 }
      else
        { s with attempts := s.attempts + 1,
                 errors := s.errors ++ ["Failed to add: " ++ g.name] }

/-- `FAQMapper.sync_language_faqs` (app.py lines 107-205): returns the
result dict together with the final in-memory mapping list and document
(which live mode persists and dry-run discards). -/
def sync_language_faqs (mapping : List MappingRecord)
    (gladlyFaqs : List GladlyFaq) (language : String) (dryRun : Bool)
    (doc : FaqData) (uuid : Nat → String) (now : String) :
    SyncOutcome × List MappingRecord × FaqData :=
  if gladlyFaqs.isEmpty then
    (.failureNoData "No data from Gladly", mapping, doc)
  else
    let idx := lastIdxOf mapping
    let final := gladlyFaqs.foldl (processEntry dryRun idx uuid now)
      { mapping := mapping, doc := doc, attempts := 0, processed := 0,
        added := 0, updated := 0, skipped := 0, errors := [] }
    (.report ⟨true, language, gladlyFaqs.length, final.processed,
      final.added, final.updated, final.skipped, final.errors⟩,
      final.mapping, final.doc)

/-- **C3 counterexample.**  An empty source list is not treated as
"nothing to do": `sync_language_faqs` returns the failure dict
`{"success": False, "error": "No data from Gladly"}`, not a success
report with zero processed entries. -/
theorem c3_empty_source_counterexample :
    (sync_language_faqs [] [] "fr-ca" true ⟨[]⟩ (fun _ => "u") "t").1
      = SyncOutcome.failureNoData "No data from Gladly" := rfl

/-- **C3 (amended).**  For every state of the mapping, document and mode,
a run over an empty source list aborts immediately with the failure
result `success=False`, `error="No data from Gladly"`, leaving the
mapping and document untouched and reporting no counters. -/
theorem c3_empty_source_aborts (mapping : List MappingRecord)
    (language : String) (dryRun : Bool) (doc : FaqData)
    (uuid : Nat → String) (now : String) :
    sync_language_faqs mapping [] language dryRun doc uuid now
      = (SyncOutcome.failureNoData "No data from Gladly", mapping, doc) := rfl

/-- **C1 counterexample.**  The spec's scenario entry
`{id: "g1", title: "Livraison", body: "<p>x</p>"}` with no mapping
record: `added` becomes 1 and a record is appended with
`source_id = "g1"` and null score, but its destination-handle field is
the empty string, not the generated handle `"livraison"`. -/
theorem c1_new_entry_counterexample :
    (sync_language_faqs [] [⟨"g1", "Livraison", "<p>x</p>"⟩] "fr-ca" true ⟨[]⟩
        (fun _ => "u") "t").1
      = SyncOutcome.report ⟨true, "fr-ca", 1, 1, 1, 0, 0, []⟩
    ∧ (sync_language_faqs [] [⟨"g1", "Livraison", "<p>x</p>"⟩] "fr-ca" true ⟨[]⟩
        (fun _ => "u") "t").2.1
      = [⟨"g1", "", "Livraison", "Livraison", "", "<p>x</p>", none, "t"⟩]
    ∧ generate_question_handle "Livraison" = "livraison"
    ∧ (⟨"g1", "", "Livraison", "Livraison", "", "<p>x</p>", none, "t"⟩ :
        MappingRecord).bosapin_handle ≠ generate_question_handle "Livraison" := by
  exact ⟨rfl, rfl, by decide, by decide⟩

/-- **C1 (amended).**  For every source entry with no mapping record for
its id (destination headings are not consulted on this path), one pass of
the loop body — in dry-run, or in live mode when the document insertion
succeeds — increments `added` and `processed` by 1 and appends a mapping
record whose source id is the entry's id, whose destination-handle field
is the empty string (the generated handle is used only inside the
document insertion), whose snapshots are the entry's current title and
body, and whose match score is null. -/
theorem c1_new_entry_amended (dryRun : Bool) (idx : String → Option Nat)
    (uuid : Nat → String) (now : String) (s : SyncState) (g : GladlyFaq)
    (hidx : idx g.id = none)
    (hok : dryRun = true ∨
      (add_faq_question s.doc (uuid s.attempts)
        (generate_question_handle g.name) g.name g.bodyHtml
        (some "Général") (some "bosapin-interrogation")
        "faq_questions_VHRPQY").1 = true) :
    (processEntry dryRun idx uuid now s g).added = s.added + 1
    ∧ (processEntry dryRun idx uuid now s g).processed = s.processed + 1
    ∧ (processEntry dryRun idx uuid now s g).mapping
        = s.mapping ++ [⟨g.id, "", g.name, g.name, "", g.bodyHtml, none, now⟩] := by
  unfold processEntry
  rw [hidx]
  cases dryRun with
  | true => exact ⟨rfl, rfl, rfl⟩
  | false =>
    rcases hok with h | h
    · cases h
    · dsimp only
      rw [if_pos h]
      exact ⟨rfl, rfl, rfl⟩

theorem c1_new_entry_amended_witness :
    (processEntry true (fun _ => none) (fun _ => "u") "t"
        ⟨[], ⟨[]⟩, 0, 0, 0, 0, 0, []⟩ ⟨"g1", "Livraison", "<p>x</p>"⟩).added = 0 + 1
    ∧ (processEntry true (fun _ => none) (fun _ => "u") "t"
        ⟨[], ⟨[]⟩, 0, 0, 0, 0, 0, []⟩ ⟨"g1", "Livraison", "<p>x</p>"⟩).processed = 0 + 1
    ∧ (processEntry true (fun _ => none) (fun _ => "u") "t"
        ⟨[], ⟨[]⟩, 0, 0, 0, 0, 0, []⟩ ⟨"g1", "Livraison", "<p>x</p>"⟩).mapping
      = [] ++ [⟨"g1", "", "Livraison", "Livraison", "", "<p>x</p>", none, "t"⟩] :=
  c1_new_entry_amended true (fun _ => none) (fun _ => "u") "t"
    ⟨[], ⟨[]⟩, 0, 0, 0, 0, 0, []⟩ ⟨"g1", "Livraison", "<p>x</p>"⟩ rfl (Or.inl rfl)

/-- **C6.**  For every source entry whose mapping record exists: when the
stored title and body snapshots both equal the entry's current title and
body, the step only increments `skipped` and `processed` (mapping,
document, counters otherwise untouched); when either snapshot differs,
the step increments `updated` and `processed` and — only in live mode —
replaces that one record's snapshots and timestamp; the destination
document is not changed on this path in either mode. -/
theorem c6_drift_detection (dryRun : Bool) (idx : String → Option Nat)
    (uuid : Nat → String) (now : String) (s : SyncState) (g : GladlyFaq)
    (i : Nat) (hidx : idx g.id = some i) :
    ((s.mapping.getD i default).gladly_question = g.name →
      (s.mapping.getD i default).gladly_answer = g.bodyHtml →
      processEntry dryRun idx uuid now s g
        = { s with skipped := s.skipped + 1, processed := s.processed + 1 })
    ∧ ((s.mapping.getD i default).gladly_question ≠ g.name ∨
        (s.mapping.getD i default).gladly_answer ≠ g.bodyHtml →
      processEntry dryRun idx uuid now s g
        = { s with
            mapping := if dryRun then s.mapping
              else s.mapping.set i
                { s.mapping.getD i default with
                  gladly_question := g.name, gladly_answer := g.bodyHtml,
                  updated_time := now },
            updated := s.updated + 1, processed := s.processed + 1 }) := by
  unfold processEntry
  rw [hidx]
  dsimp only
  constructor
  · intro h1 h2
    rw [if_neg (fun hc => hc.elim (fun hq => hq h1) (fun ha => ha h2))]
  · intro h
    rw [if_pos h]

theorem c6_drift_detection_witness :
    processEntry true (fun _ => some 0) (fun _ => "u") "t"
      ⟨[⟨"gd", "h", "Q", "Q", "A", "A", none, "t0"⟩], ⟨[]⟩, 0, 0, 0, 0, 0, []⟩
      ⟨"gd", "Q", "A"⟩
      = ⟨[⟨"gd", "h", "Q", "Q", "A", "A", none, "t0"⟩], ⟨[]⟩, 0, 1, 0, 0, 1, []⟩
    ∧ processEntry false (fun _ => some 0) (fun _ => "u") "t2"
      ⟨[⟨"gd", "h", "Q", "Q", "A", "A", none, "t0"⟩], ⟨[]⟩, 0, 0, 0, 0, 0, []⟩
      ⟨"gd", "Q2", "A"⟩
      = ⟨[⟨"gd", "h", "Q", "Q2", "A", "A", none, "t2"⟩], ⟨[]⟩, 0, 1, 0, 1, 0, []⟩ :=
  ⟨(c6_drift_detection true (fun _ => some 0) (fun _ => "u") "t"
      ⟨[⟨"gd", "h", "Q", "Q", "A", "A", none, "t0"⟩], ⟨[]⟩, 0, 0, 0, 0, 0, []⟩
      ⟨"gd", "Q", "A"⟩ 0 rfl).1 rfl rfl,
    (c6_drift_detection false (fun _ => some 0) (fun _ => "u") "t2"
      ⟨[⟨"gd", "h", "Q", "Q", "A", "A", none, "t0"⟩], ⟨[]⟩, 0, 0, 0, 0, 0, []⟩
      ⟨"gd", "Q2", "A"⟩ 0 rfl).2 (Or.inl (by decide))⟩

/-! ### Characterizations of the five branches of the loop body -/

theorem processEntry_skip (dryRun : Bool) (idx : String → Option Nat)
    (uuid : Nat → String) (now : String) (s : SyncState) (g : GladlyFaq)
    (i : Nat) (hidx : idx g.id = some i)
    (h1 : (s.mapping.getD i default).gladly_question = g.name)
    (h2 : (s.mapping.getD i default).gladly_answer = g.bodyHtml) :
    processEntry dryRun idx uuid now s g
      = { s with skipped := s.skipped + 1, processed := s.processed + 1 } := by
  unfold processEntry
  rw [hidx]
  dsimp only
  rw [if_neg (fun hc => hc.elim (fun hq => hq h1) (fun ha => ha h2))]

theorem processEntry_drift_dry (idx : String → Option Nat)
    (uuid : Nat → String) (now : String) (s : SyncState) (g : GladlyFaq)
    (i : Nat) (hidx : idx g.id = some i)
    (h : (s.mapping.getD i default).gladly_question ≠ g.name ∨
      (s.mapping.getD i default).gladly_answer ≠ g.bodyHtml) :
    processEntry true idx uuid now s g
      = { s with updated := s.updated + 1, processed := s.processed + 1 } := by
  unfold processEntry
  rw [hidx]
  dsimp only
  rw [if_pos h]
  rfl

theorem processEntry_drift_live (idx : String → Option Nat)
    (uuid : Nat → String) (now : String) (s : SyncState) (g : GladlyFaq)
    (i : Nat) (hidx : idx g.id = some i)
    (h : (s.mapping.getD i default).gladly_question ≠ g.name ∨
      (s.mapping.getD i default).gladly_answer ≠ g.bodyHtml) :
    processEntry false idx uuid now s g
      = { s with
          mapping := s.mapping.set i
            { s.mapping.getD i default with
              gladly_question := g.name, gladly_answer := g.bodyHtml,
              updated_time := now },
          updated := s.updated + 1, processed := s.processed + 1 } := by
  unfold processEntry
  rw [hidx]
  dsimp only
  rw [if_pos h]
  rfl

theorem processEntry_new_dry (idx : String → Option Nat)
    (uuid : Nat → String) (now : String) (s : SyncState) (g : GladlyFaq)
    (hidx : idx g.id = none) :
    processEntry true idx uuid now s g
      = { s with
          mapping := s.mapping ++ [newMappingRecord g now]
          added := s.added + 1
          processed := s.processed + 1 } := by
  unfold processEntry
  rw [hidx]
  rfl

theorem processEntry_new_live_ok (idx : String → Option Nat)
    (uuid : Nat → String) (now : String) (s : SyncState) (g : GladlyFaq)
    (hidx : idx g.id = none)
    (hok : (add_faq_question s.doc (uuid s.attempts)
      (generate_question_handle g.name) g.name g.bodyHtml
      (some "Général") (some "bosapin-interrogation")
      "faq_questions_VHRPQY").1 = true) :
    processEntry false idx uuid now s g
      = { s with
          doc := (add_faq_question s.doc (uuid s.attempts)
            (generate_question_handle g.name) g.name g.bodyHtml
            (some "Général") (some "bosapin-interrogation")
            "faq_questions_VHRPQY").2
          attempts := s.attempts + 1
          mapping := s.mapping ++ [newMappingRecord g now]
          added := s.added + 1
          processed := s.processed + 1 } := by
  unfold processEntry
  rw [hidx]
  dsimp only
  rw [if_pos hok]
  rfl

theorem processEntry_new_live_fail (idx : String → Option Nat)
    (uuid : Nat → String) (now : String) (s : SyncState) (g : GladlyFaq)
    (hidx : idx g.id = none)
    (hfail : ¬ (add_faq_question s.doc (uuid s.attempts)
      (generate_question_handle g.name) g.name g.bodyHtml
      (some "Général") (some "bosapin-interrogation")
      "faq_questions_VHRPQY").1 = true) :
    processEntry false idx uuid now s g
      = { s with
          attempts := s.attempts + 1
          errors := s.errors ++ ["Failed to add: " ++ g.name] } := by
  unfold processEntry
  rw [hidx]
  dsimp only
  rw [if_neg hfail]
  rfl

/-! ### C10: the counters balance -/

theorem processEntry_balance (dryRun : Bool) (idx : String → Option Nat)
    (uuid : Nat → String) (now : String) (s : SyncState) (g : GladlyFaq)
    (h : s.processed = s.added + s.updated + s.skipped) :
    (processEntry dryRun idx uuid now s g).processed
      = (processEntry dryRun idx uuid now s g).added
        + (processEntry dryRun idx uuid now s g).updated
        + (processEntry dryRun idx uuid now s g).skipped := by
  cases hidx : idx g.id with
  | some i =>
    by_cases hd : (s.mapping.getD i default).gladly_question ≠ g.name ∨
        (s.mapping.getD i default).gladly_answer ≠ g.bodyHtml
    · cases dryRun with
      | true =>
        rw [processEntry_drift_dry idx uuid now s g i hidx hd]
        dsimp only
        omega
      | false =>
        rw [processEntry_drift_live idx uuid now s g i hidx hd]
        dsimp only
        omega
    · rw [not_or, not_not, not_not] at hd
      rw [processEntry_skip dryRun idx uuid now s g i hidx hd.1 hd.2]
      dsimp only
      omega
  | none =>
    cases dryRun with
    | true =>
      rw [processEntry_new_dry idx uuid now s g hidx]
      dsimp only
      omega
    | false =>
      by_cases hok : (add_faq_question s.doc (uuid s.attempts)
          (generate_question_handle g.name) g.name g.bodyHtml
          (some "Général") (some "bosapin-interrogation")
          "faq_questions_VHRPQY").1 = true
      · rw [processEntry_new_live_ok idx uuid now s g hidx hok]
        dsimp only
        omega
      · rw [processEntry_new_live_fail idx uuid now s g hidx hok]
        dsimp only
        omega

theorem syncFold_balance (dryRun : Bool) (idx : String → Option Nat)
    (uuid : Nat → String) (now : String) :
    ∀ (gs : List GladlyFaq) (s : SyncState),
      s.processed = s.added + s.updated + s.skipped →
      (gs.foldl (processEntry dryRun idx uuid now) s).processed
        = (gs.foldl (processEntry dryRun idx uuid now) s).added
          + (gs.foldl (processEntry dryRun idx uuid now) s).updated
          + (gs.foldl (processEntry dryRun idx uuid now) s).skipped := by
  intro gs
  induction gs with
  | nil => intro s h; exact h
  | cons g rest ih =>
    intro s h
    exact ih _ (processEntry_balance dryRun idx uuid now s g h)

/-- **C10.**  Whenever a run over a non-empty source list returns a
report, its counters satisfy `processed = added + updated + skipped`:
every processed entry lands in exactly one bucket, and entries whose
live-mode destination write fails are counted in none (they only extend
the error list). -/
theorem c10_counters_balance (mapping : List MappingRecord)
    (gladlyFaqs : List GladlyFaq) (language : String) (dryRun : Bool)
    (doc : FaqData) (uuid : Nat → String) (now : String) (r : SyncResult)
    (hne : gladlyFaqs ≠ [])
    (hrep : (sync_language_faqs mapping gladlyFaqs language dryRun doc uuid
      now).1 = SyncOutcome.report r) :
    r.processed = r.added + r.updated + r.skipped := by
  unfold sync_language_faqs at hrep
  rw [if_neg (fun hc => hne (List.isEmpty_iff.mp hc))] at hrep
  dsimp only at hrep
  injection hrep with h1
  rw [← h1]
  dsimp only
  exact syncFold_balance dryRun (lastIdxOf mapping) uuid now gladlyFaqs _ rfl

theorem c10_counters_balance_witness :
    (⟨true, "fr-ca", 1, 1, 1, 0, 0, []⟩ : SyncResult).processed
      = (⟨true, "fr-ca", 1, 1, 1, 0, 0, []⟩ : SyncResult).added
        + (⟨true, "fr-ca", 1, 1, 1, 0, 0, []⟩ : SyncResult).updated
        + (⟨true, "fr-ca", 1, 1, 1, 0, 0, []⟩ : SyncResult).skipped :=
  c10_counters_balance [] [⟨"g1", "Livraison", "<p>x</p>"⟩] "fr-ca" true ⟨[]⟩
    (fun _ => "u") "t" ⟨true, "fr-ca", 1, 1, 1, 0, 0, []⟩ (by decide) (by decide)

/-! ### C5: dry-run versus live counts -/

theorem dictGet_isSome_iff {l : List (String × α)} {k : String} :
    (dictGet l k).isSome ↔ k ∈ l.map Prod.fst := by
  constructor
  · intro h
    rcases Option.isSome_iff_exists.mp h with ⟨v, hv⟩
    rcases Option.map_eq_some'.mp hv with ⟨q, hq, _⟩
    have hqk : q.1 = k := by
      have := List.find?_some hq
      simpa using this
    exact List.mem_map.mpr ⟨q, List.mem_of_find?_eq_some hq, hqk⟩
  · intro h
    rcases List.mem_map.mp h with ⟨q, hq, hqe⟩
    have hfind : (l.find? (fun p => p.1 = k)).isSome :=
      List.find?_isSome.mpr ⟨q, hq, by simpa using hqe⟩
    rcases Option.isSome_iff_exists.mp hfind with ⟨q2, hq2⟩
    unfold dictGet
    rw [hq2]
    rfl

theorem add_faq_question_ok (doc : FaqData) (nid qh hd ct : String)
    (cat icon : Option String) (sid : String)
    (hsec : (dictGet doc.sections sid).isSome) :
    (add_faq_question doc nid qh hd ct cat icon sid).1 = true
    ∧ (dictGet (add_faq_question doc nid qh hd ct cat icon sid).2.sections
        sid).isSome := by
  unfold add_faq_question
  cases hget : dictGet doc.sections sid with
  | none => rw [hget] at hsec; simp at hsec
  | some sec =>
    dsimp only
    refine ⟨rfl, ?_⟩
    rw [dictGet_isSome_iff]
    exact dictSet_key_mem _ _ _

theorem lastIdxOf_spec {l : List MappingRecord} {id : String} {i : Nat}
    (h : lastIdxOf l id = some i) :
    i < l.length ∧ (l.getD i default).gladly_id = id := by
  induction l generalizing i with
  | nil => simp [lastIdxOf] at h
  | cons m rest ih =>
    rw [lastIdxOf] at h
    cases hr : lastIdxOf rest id with
    | some j =>
      rw [hr] at h
      injection h with h1
      subst h1
      obtain ⟨hlt, hget⟩ := ih hr
      exact ⟨Nat.succ_lt_succ hlt, by simpa using hget⟩
    | none =>
      rw [hr] at h
      by_cases hm : m.gladly_id = id
      · rw [if_pos hm] at h
        injection h with h1
        subst h1
        exact ⟨Nat.succ_pos _, by simpa using hm⟩
      · rw [if_neg hm] at h
        cases h

theorem lastIdxOf_inj {l : List MappingRecord} {id1 id2 : String} {i : Nat}
    (h1 : lastIdxOf l id1 = some i) (h2 : lastIdxOf l id2 = some i) :
    id1 = id2 := by
  have s1 := (lastIdxOf_spec h1).2
  have s2 := (lastIdxOf_spec h2).2
  rw [← s1, s2]

theorem getD_set_ne {l : List MappingRecord} {i j : Nat} {a : MappingRecord}
    (h : i ≠ j) : (l.set i a).getD j default = l.getD j default := by
  rw [List.getD_eq_getElem?_getD, List.getD_eq_getElem?_getD,
    List.getElem?_set_ne h]

theorem getD_append_eq {l1 l2 : List MappingRecord} {j : Nat}
    (a : MappingRecord) (hlen : l1.length = l2.length)
    (hrec : l1.getD j default = l2.getD j default) :
    (l1 ++ [a]).getD j default = (l2 ++ [a]).getD j default := by
  by_cases hj : j < l1.length
  · rw [List.getD_eq_getElem?_getD, List.getD_eq_getElem?_getD,
      List.getElem?_append_left hj, List.getElem?_append_left (hlen ▸ hj)]
    rw [List.getD_eq_getElem?_getD, List.getD_eq_getElem?_getD] at hrec
    exact hrec
  · rw [List.getD_eq_getElem?_getD, List.getD_eq_getElem?_getD,
      List.getElem?_append_right (Nat.le_of_not_lt hj),
      List.getElem?_append_right (hlen ▸ Nat.le_of_not_lt hj), hlen]

/-- Dry-run and live runs over a list of entries with pairwise-distinct
ids advance the four counters and the error list identically, provided
the live document keeps the target section (so every insertion
succeeds).  The invariant carried through the fold: equal counters, equal
error lists, equal mapping lengths, and — for every entry still to be
processed — equal records at the index its id resolves to. -/
theorem syncFold_dry_live (idx : String → Option Nat) (uuid : Nat → String)
    (now : String)
    (hinj : ∀ id1 id2 i, idx id1 = some i → idx id2 = some i → id1 = id2) :
    ∀ (gs : List GladlyFaq) (sd sl : SyncState),
      (gs.map (fun g => g.id)).Nodup →
      (dictGet sl.doc.sections "faq_questions_VHRPQY").isSome →
      sd.mapping.length = sl.mapping.length →
      (∀ g ∈ gs, ∀ i, idx g.id = some i →
        sd.mapping.getD i default = sl.mapping.getD i default) →
      sd.processed = sl.processed → sd.added = sl.added →
      sd.updated = sl.updated → sd.skipped = sl.skipped →
      sd.errors = sl.errors →
      ((gs.foldl (processEntry true idx uuid now) sd).processed
          = (gs.foldl (processEntry false idx uuid now) sl).processed)
        ∧ ((gs.foldl (processEntry true idx uuid now) sd).added
          = (gs.foldl (processEntry false idx uuid now) sl).added)
        ∧ ((gs.foldl (processEntry true idx uuid now) sd).updated
          = (gs.foldl (processEntry false idx uuid now) sl).updated)
        ∧ ((gs.foldl (processEntry true idx uuid now) sd).skipped
          = (gs.foldl (processEntry false idx uuid now) sl).skipped)
        ∧ ((gs.foldl (processEntry true idx uuid now) sd).errors
          = (gs.foldl (processEntry false idx uuid now) sl).errors) := by
  intro gs
  induction gs with
  | nil =>
    intro sd sl _ _ _ _ hp ha hu hs he
    exact ⟨hp, ha, hu, hs, he⟩
  | cons g rest ih =>
    intro sd sl hnd hsec hlen hrec hp ha hu hs he
    rw [List.map_cons] at hnd
    rw [List.foldl_cons, List.foldl_cons]
    have hnd1 : g.id ∉ rest.map (fun g => g.id) := (List.nodup_cons.mp hnd).1
    have hnd2 : (rest.map (fun g => g.id)).Nodup := (List.nodup_cons.mp hnd).2
    have hne : ∀ g2 ∈ rest, g2.id ≠ g.id := by
      intro g2 hg2 hcontra
      exact hnd1 (hcontra ▸ List.mem_map.mpr ⟨g2, hg2, rfl⟩)
    cases hidx : idx g.id with
    | some i =>
      have hreceq := hrec g (List.mem_cons_self g rest) i hidx
      have hrec' : ∀ g2 ∈ rest, ∀ j, idx g2.id = some j → j ≠ i := by
        intro g2 hg2 j hj hji
        exact hne g2 hg2 (hinj g2.id g.id i (hji ▸ hj) hidx)
      by_cases hdrift : (sl.mapping.getD i default).gladly_question ≠ g.name
          ∨ (sl.mapping.getD i default).gladly_answer ≠ g.bodyHtml
      · rw [processEntry_drift_dry idx uuid now sd g i hidx (hreceq ▸ hdrift),
          processEntry_drift_live idx uuid now sl g i hidx hdrift]
        refine ih _ _ hnd2 hsec (by simpa using hlen) ?_
          (by dsimp only; omega) (by dsimp only; omega)
          (by dsimp only; omega) (by dsimp only; omega)
          (by dsimp only; exact he)
        intro g2 hg2 j hj
        dsimp only
        rw [getD_set_ne (fun hij => hrec' g2 hg2 j hj hij.symm)]
        exact hrec g2 (List.mem_cons_of_mem _ hg2) j hj
      · rw [not_or, not_not, not_not] at hdrift
        rw [processEntry_skip true idx uuid now sd g i hidx
            (by rw [hreceq]; exact hdrift.1) (by rw [hreceq]; exact hdrift.2),
          processEntry_skip false idx uuid now sl g i hidx hdrift.1 hdrift.2]
        refine ih _ _ hnd2 hsec (by simpa using hlen) ?_
          (by dsimp only; omega) (by dsimp only; omega)
          (by dsimp only; omega) (by dsimp only; omega)
          (by dsimp only; exact he)
        intro g2 hg2 j hj
        dsimp only
        exact hrec g2 (List.mem_cons_of_mem _ hg2) j hj
    | none =>
      have hok := add_faq_question_ok sl.doc (uuid sl.attempts)
        (generate_question_handle g.name) g.name g.bodyHtml
        (some "Général") (some "bosapin-interrogation")
        "faq_questions_VHRPQY" hsec
      rw [processEntry_new_dry idx uuid now sd g hidx,
        processEntry_new_live_ok idx uuid now sl g hidx hok.1]
      refine ih _ _ hnd2 (by dsimp only; exact hok.2) (by dsimp only; simpa using hlen) ?_
        (by dsimp only; omega) (by dsimp only; omega)
        (by dsimp only; omega) (by dsimp only; omega)
        (by dsimp only; exact he)
      intro g2 hg2 j hj
      dsimp only
      exact getD_append_eq _ hlen (hrec g2 (List.mem_cons_of_mem _ hg2) j hj)

/-- **C5 counterexample.**  Dry-run and live counts can differ on
identical inputs.  First pair: a document lacking the configured target
section makes every live insertion fail, so the live run reports the
entry in no counter and logs an error while the dry run counts it as
added.  Second pair: two source entries sharing an id whose record has
drifted — the live run updates the record in place so the second entry is
skipped, while the dry run (which persists nothing) classifies both as
updated. -/
theorem c5_dry_live_counterexample :
    (sync_language_faqs [] [⟨"gx", "T", "B"⟩] "fr-ca" true ⟨[]⟩
        (fun _ => "u") "t").1
      = SyncOutcome.report ⟨true, "fr-ca", 1, 1, 1, 0, 0, []⟩
    ∧ (sync_language_faqs [] [⟨"gx", "T", "B"⟩] "fr-ca" false ⟨[]⟩
        (fun _ => "u") "t").1
      = SyncOutcome.report ⟨true, "fr-ca", 1, 0, 0, 0, 0, ["Failed to add: T"]⟩
    ∧ (sync_language_faqs [⟨"gd", "", "Old", "Old", "", "OA", none, "t0"⟩]
        [⟨"gd", "New", "A"⟩, ⟨"gd", "New", "A"⟩] "fr-ca" true ⟨[]⟩
        (fun _ => "u") "t").1
      = SyncOutcome.report ⟨true, "fr-ca", 2, 2, 0, 2, 0, []⟩
    ∧ (sync_language_faqs [⟨"gd", "", "Old", "Old", "", "OA", none, "t0"⟩]
        [⟨"gd", "New", "A"⟩, ⟨"gd", "New", "A"⟩] "fr-ca" false ⟨[]⟩
        (fun _ => "u") "t").1
      = SyncOutcome.report ⟨true, "fr-ca", 2, 2, 0, 1, 1, []⟩ := by
  exact ⟨rfl, rfl, rfl, rfl⟩

/-- **C5 (amended).**  Over identical inputs, a dry-run and a live run
report identical `processed`/`added`/`updated`/`skipped` counts and
identical error lists, provided the configured target section exists in
the destination document (so every live insertion succeeds) and no
source id occurs twice in the batch; the two runs differ only in the
returned mapping list and document, which live mode persists.  (When a
live write fails, or a duplicated id meets an updated record, the counts
can diverge — see the counterexample.) -/
theorem c5_dry_live_equivalence (mapping : List MappingRecord)
    (gladlyFaqs : List GladlyFaq) (language : String) (doc : FaqData)
    (uuid : Nat → String) (now : String)
    (hsec : (dictGet doc.sections "faq_questions_VHRPQY").isSome)
    (hnd : (gladlyFaqs.map (fun g => g.id)).Nodup) :
    (sync_language_faqs mapping gladlyFaqs language true doc uuid now).1
      = (sync_language_faqs mapping gladlyFaqs language false doc uuid now).1 := by
  unfold sync_language_faqs
  by_cases hemp : gladlyFaqs.isEmpty
  · rw [if_pos hemp, if_pos hemp]
  · rw [if_neg hemp, if_neg hemp]
    dsimp only
    obtain ⟨hp, ha, hu, hs, he⟩ := syncFold_dry_live (lastIdxOf mapping) uuid
      now (fun id1 id2 i h1 h2 => lastIdxOf_inj h1 h2) gladlyFaqs
      ⟨mapping, doc, 0, 0, 0, 0, 0, []⟩ ⟨mapping, doc, 0, 0, 0, 0, 0, []⟩
      hnd hsec rfl (fun _ _ _ _ => rfl) rfl rfl rfl rfl rfl
    rw [hp, ha, hu, hs, he]

def c5Doc : FaqData :=
  ⟨[("faq_questions_VHRPQY", ⟨[], [], none, none⟩)]⟩

theorem c5_dry_live_equivalence_witness :
    (sync_language_faqs [] [⟨"g1", "Livraison", "<p>x</p>"⟩] "fr-ca" true
        c5Doc (fun _ => "u") "t").1
      = (sync_language_faqs [] [⟨"g1", "Livraison", "<p>x</p>"⟩] "fr-ca" false
        c5Doc (fun _ => "u") "t").1 :=
  c5_dry_live_equivalence [] [⟨"g1", "Livraison", "<p>x</p>"⟩] "fr-ca" c5Doc
    (fun _ => "u") "t" (by decide) (by decide)

end FaqSync
